import Mathlib

/-!
Verification of the school-scheduling engine (`bricks-in-the-wall`).

Shallow embedding of the core data model and of the constraint/objective/solve
pipeline from `src/data_loader.py`, `src/constraints.py`, `src/objectives.py`,
`src/scheduler.py`, `src/scheduler_utils.py` and `run_scheduler.py`.
-/

namespace SchoolScheduler

/-- A time slot is a `(day, period)` pair, as produced by `data_loader.load_time_slots`. -/
abbrev TimeSlot := Nat × Nat

/-- Key of a decision variable `x[teacher_id, class_id, room_id, time_slot]`
(see `scheduler.Scheduler.create_variables`). -/
abbrev VarKey := String × String × String × TimeSlot

/-- Teacher record as built by `data_loader.load_teachers`. -/
structure Teacher where
  id : String
  name : String
  subjects : List String
  fullTime : Bool
  availability : List (List Bool)
  deriving DecidableEq

/-- Class record as built by `data_loader.load_classes`. -/
structure SchoolClass where
  id : String
  subject : String
  gradeLevel : Nat
  numStudents : Nat
  periodsPerWeek : Nat
  deriving DecidableEq

/-- Room record as built by `data_loader.load_rooms`. -/
structure Room where
  id : String
  capacity : Nat
  roomType : String
  deriving DecidableEq

/-- The four entity collections returned by `data_loader.load_all_data`. -/
structure SchoolData where
  teachers : List Teacher
  classes : List SchoolClass
  rooms : List Room
  timeSlots : List TimeSlot
  deriving DecidableEq

/-- Python `str.split` with a one-character separator, on the character list of the
string: splitting the empty string yields one empty field, and every occurrence of
the separator starts a new field (so `"a;;b"` yields three fields). -/
def pySplit (sep : Char) : List Char → List (List Char)
  | [] => [[]]
  | c :: rest =>
    match pySplit sep rest with
    | [] => if c = sep then [[], []] else [[c]]
    | h :: t => if c = sep then [] :: h :: t else (c :: h) :: t

/-- `data_loader.parse_availability` (lines 157-189): split the string into days on
`;` and into period cells on `,`; a cell is available iff it is the string `"1"`;
each day row is extended by `false` cells up to `num_periods` (Python
`[False] * (num_periods - len(day_availability))`, which appends nothing when the
row is already long enough, exactly like truncated subtraction); finally all-false
day rows are appended while the day count is below `num_days`. -/
def parse_availability (availability_str : String) (num_days num_periods : Nat) :
    List (List Bool) :=
  let days := pySplit ';' availability_str.data
  let availability := days.map (fun day =>
    let periods := pySplit ',' day
    let day_availability := periods.map (fun slot => slot == ['1'])
    day_availability ++ List.replicate (num_periods - day_availability.length) false)
  availability ++ List.replicate (num_days - availability.length)
    (List.replicate num_periods false)

/-! ## Variable space (`scheduler.Scheduler.create_variables`) -/

/-- `Scheduler.create_variables` (scheduler.py lines 52-57): one binary decision
variable for every `(teacher, class, room, time_slot)` tuple of the full cross
product of the four collections.  The dictionary `self.x` is modelled by its key
list; lookup is membership. -/
def create_variables (data : SchoolData) : List VarKey :=
  data.teachers.flatMap (fun t =>
    data.classes.flatMap (fun c =>
      data.rooms.flatMap (fun r =>
        data.timeSlots.map (fun ts => (t.id, c.id, r.id, ts)))))

/-- Dictionary lookup `x[key]` (raises `KeyError` when absent): `some` iff the key
is in the variable space. -/
def xFind (space : List VarKey) (k : VarKey) : Option VarKey :=
  if k ∈ space then some k else none

/-- `x.get(key, 0)` under an assignment of values to the decision variables: the
assigned value inside the space, the constant `0` outside it. -/
def xGet (space : List VarKey) (σ : VarKey → Int) (k : VarKey) : Int :=
  if k ∈ space then σ k else 0

/-! ## Linear constraints (`constraints.py`) -/

/-- A linear constraint `lb ≤ Σ coeff·var ≤ ub` as built by
`solver.Constraint(lb, ub)` plus `SetCoefficient` calls. -/
structure LinearCon where
  lb : Int
  ub : Int
  terms : List (VarKey × Int)
  deriving DecidableEq

/-- Value of the linear expression of a constraint under an assignment. -/
def conSum (σ : VarKey → Int) (con : LinearCon) : Int :=
  (con.terms.map (fun p => p.2 * σ p.1)).sum

/-- An assignment satisfies a constraint when the expression is within the bounds. -/
def satisfiesCon (σ : VarKey → Int) (con : LinearCon) : Prop :=
  con.lb ≤ conSum σ con ∧ conSum σ con ≤ con.ub

instance (σ : VarKey → Int) (con : LinearCon) : Decidable (satisfiesCon σ con) := by
  unfold satisfiesCon; infer_instance

/-- The keys of one teacher's variables over all classes and rooms at one slot, in
the `for c in classes: for r in rooms:` loop order used throughout
`constraints.py` and `objectives.py`. -/
def teacherSlotKeys (tid : String) (classes : List SchoolClass) (rooms : List Room)
    (ts : TimeSlot) : List VarKey :=
  classes.flatMap (fun c => rooms.map (fun r => (tid, c.id, r.id, ts)))

/-- The availability grid cell of a teacher at a slot: `none` when the grid has no
row for the day or the row has no cell for the period (the
`day >= len(...) or period >= len(...)` guard of
`teacher_availability_constraint`, lines 70-72). -/
def availabilityCell (t : Teacher) (ts : TimeSlot) : Option Bool :=
  match t.availability.get? ts.1 with
  | none => none
  | some row => row.get? ts.2

/-- `constraints.teacher_availability_constraint` (lines 66-80): for each teacher
and time slot, a missing availability cell prints a warning and `continue`s (no
constraint is emitted); a `false` cell emits `solver.Constraint(0, 0)` with
coefficient 1 on every variable of that teacher at that slot; a `true` cell emits
nothing. -/
def teacher_availability_constraint (teachers : List Teacher)
    (classes : List SchoolClass) (rooms : List Room) (time_slots : List TimeSlot) :
    List LinearCon :=
  teachers.flatMap (fun t =>
    time_slots.filterMap (fun ts =>
      match availabilityCell t ts with
      | none => none
      | some avail =>
        if avail then none
        else some { lb := 0, ub := 0,
                    terms := (teacherSlotKeys t.id classes rooms ts).map
                      (fun k => (k, 1)) }))

/-- Sum of one teacher's decision variables over all classes and rooms at a slot. -/
def teacherSlotSum (σ : VarKey → Int) (tid : String) (classes : List SchoolClass)
    (rooms : List Room) (ts : TimeSlot) : Int :=
  ((teacherSlotKeys tid classes rooms ts).map σ).sum

/-- `constraints.one_class_per_teacher_per_period` (lines 105-114): for each
teacher and time slot, `solver.Constraint(0, 1)` with coefficient 1 on every
variable of that teacher at that slot. -/
def one_class_per_teacher_per_period (teachers : List Teacher)
    (classes : List SchoolClass) (rooms : List Room) (time_slots : List TimeSlot) :
    List LinearCon :=
  teachers.flatMap (fun t =>
    time_slots.map (fun ts =>
      { lb := 0, ub := 1,
        terms := (teacherSlotKeys t.id classes rooms ts).map (fun k => (k, 1)) }))

/-- The keys of one class's variables over all teachers, rooms and time slots, in
the `for t in teachers: for r in rooms: for ts in time_slots:` loop order of
`required_periods_per_class` (lines 143-146). -/
def classTotalKeys (c : SchoolClass) (teachers : List Teacher) (rooms : List Room)
    (time_slots : List TimeSlot) : List VarKey :=
  teachers.flatMap (fun t =>
    rooms.flatMap (fun r => time_slots.map (fun ts => (t.id, c.id, r.id, ts))))

/-- `constraints.required_periods_per_class` (lines 139-148): for each class, an
equality constraint `solver.Constraint(p, p)` with `p = class.PeriodsPerWeek` and
coefficient 1 on every variable of that class. -/
def required_periods_per_class (classes : List SchoolClass)
    (teachers : List Teacher) (rooms : List Room) (time_slots : List TimeSlot) :
    List LinearCon :=
  classes.map (fun c =>
    { lb := (c.periodsPerWeek : Int), ub := (c.periodsPerWeek : Int),
      terms := (classTotalKeys c teachers rooms time_slots).map (fun k => (k, 1)) })

/-- Sum of one class's decision variables over all teachers, rooms and slots. -/
def classTotalSum (σ : VarKey → Int) (c : SchoolClass) (teachers : List Teacher)
    (rooms : List Room) (time_slots : List TimeSlot) : Int :=
  ((classTotalKeys c teachers rooms time_slots).map σ).sum

/-- `constraints.room_capacity_constraint` (lines 33-41): for each room and time
slot, `solver.Constraint(0, capacity)` with coefficient `class.NumStudents` on the
variable of every class and teacher in that room at that slot. -/
def room_capacity_constraint (classes : List SchoolClass) (rooms : List Room)
    (time_slots : List TimeSlot) (teachers : List Teacher) : List LinearCon :=
  rooms.flatMap (fun r =>
    time_slots.map (fun ts =>
      { lb := 0, ub := (r.capacity : Int),
        terms := classes.flatMap (fun c =>
          teachers.map (fun t =>
            ((t.id, c.id, r.id, ts), (c.numStudents : Int)))) }))

/-- `constraints.apply_all_constraints` (lines 173-179): the four constraint
families, concatenated in the source order. -/
def apply_all_constraints (data : SchoolData) : List LinearCon :=
  room_capacity_constraint data.classes data.rooms data.timeSlots data.teachers ++
  teacher_availability_constraint data.teachers data.classes data.rooms data.timeSlots ++
  one_class_per_teacher_per_period data.teachers data.classes data.rooms data.timeSlots ++
  required_periods_per_class data.classes data.teachers data.rooms data.timeSlots

/-! ## Gap objective (`objectives.minimize_teacher_gaps`) -/

/-- `teaching_periods[p]` (objectives.py lines 52-56): the sum over all classes and
rooms of `x.get((t, c, r, (d, p)), 0)` — a key outside the variable space
contributes the constant 0. -/
def teachingPeriod (space : List VarKey) (σ : VarKey → Int) (tid : String)
    (classes : List SchoolClass) (rooms : List Room) (d p : Nat) : Int :=
  ((teacherSlotKeys tid classes rooms (d, p)).map (xGet space σ)).sum

/-- Python `range(1, 7)`: the interior periods `1..6` of the hardcoded 8-period
day used at objectives.py line 63. -/
def interiorPeriods : List Nat := (List.range 6).map (· + 1)

/-- The `(teacher, day, period)` triples for which `minimize_teacher_gaps` creates
a `gap` variable.  The function receives `time_slots` (and ignores it): the day
range is hardcoded `range(5)` (line 49) and the period range `range(1, 7)`
(line 63). -/
def gapTriples (teachers : List Teacher) (_time_slots : List TimeSlot) :
    List (String × Nat × Nat) :=
  teachers.flatMap (fun t =>
    (List.range 5).flatMap (fun d =>
      interiorPeriods.map (fun p => (t.id, d, p))))

/-- The constraints attached to one `gap` variable `g` (objectives.py lines
65-69): `g` is an `IntVar(0, 1)` with
`g ≥ tp[p-1] + tp[p+1] - 1`, `g ≤ 1 - tp[p]`, `g ≤ tp[p-1]`, `g ≤ tp[p+1]`. -/
def gapConstraints (space : List VarKey) (σ : VarKey → Int) (tid : String)
    (classes : List SchoolClass) (rooms : List Room) (d p : Nat) (g : Int) : Prop :=
  0 ≤ g ∧ g ≤ 1 ∧
  teachingPeriod space σ tid classes rooms d (p - 1) +
    teachingPeriod space σ tid classes rooms d (p + 1) - 1 ≤ g ∧
  g ≤ 1 - teachingPeriod space σ tid classes rooms d p ∧
  g ≤ teachingPeriod space σ tid classes rooms d (p - 1) ∧
  g ≤ teachingPeriod space σ tid classes rooms d (p + 1)

instance (space : List VarKey) (σ : VarKey → Int) (tid : String)
    (classes : List SchoolClass) (rooms : List Room) (d p : Nat) (g : Int) :
    Decidable (gapConstraints space σ tid classes rooms d p g) := by
  unfold gapConstraints; infer_instance

/-- The indicator value the linking constraints force on a `gap` variable: 1
exactly when the teacher teaches periods `p-1` and `p+1` but not `p`. -/
def gapIndicator (space : List VarKey) (σ : VarKey → Int)
    (classes : List SchoolClass) (rooms : List Room)
    (trip : String × Nat × Nat) : Int :=
  if teachingPeriod space σ trip.1 classes rooms trip.2.1 (trip.2.2 - 1) = 1 ∧
     teachingPeriod space σ trip.1 classes rooms trip.2.1 trip.2.2 = 0 ∧
     teachingPeriod space σ trip.1 classes rooms trip.2.1 (trip.2.2 + 1) = 1
  then 1 else 0

/-- `total_gaps == solver.Sum(gap_vars)` (objectives.py line 83): the value of the
total-gaps variable determined by a gap assignment, summed in the loop order the
gap variables were appended. -/
def totalGapsValue (teachers : List Teacher) (time_slots : List TimeSlot)
    (γ : String × Nat × Nat → Int) : Int :=
  ((gapTriples teachers time_slots).map γ).sum

/-! ## Solver identity traces (`objectives.py` / `scheduler.py`)

Each objective function calls `pywraplp.Solver.CreateSolver('SCIP')` and creates
its variables and constraints on that fresh instance, while the `Scheduler` holds
its own `CreateSolver("CBC")` instance with the decision variables and hard
constraints.  Solver instances are modelled by consecutive identifiers drawn from
a counter; each trace records the owner of the returned objective variable and
the owners of the constraints added during construction. -/

/-- `pywraplp.Solver.CreateSolver`: returns a fresh solver instance, modelled as
drawing the next identifier. -/
def createSolver (counter : Nat) : Nat × Nat := (counter, counter + 1)

/-- Owners recorded while building one objective component. -/
structure ObjTrace where
  objOwner : Nat
  conOwners : List Nat
  deriving DecidableEq

/-- `minimize_teacher_gaps` (objectives.py lines 39-92): creates one fresh solver;
per teacher, per day in `range(5)`, per period in `range(1, 7)` it adds 4 linking
constraints, plus the final `total_gaps` constraint — all on that fresh solver,
which also owns the returned `total_gaps` variable. -/
def minimize_teacher_gaps_trace (teachers : List Teacher) (counter : Nat) :
    ObjTrace × Nat :=
  let (s, counter1) := createSolver counter
  ({ objOwner := s, conOwners := List.replicate (teachers.length * 5 * 6 * 4 + 1) s },
   counter1)

/-- `balance_workload` (objectives.py lines 123-145): one fresh solver; 2
constraints per teacher plus the final `workload_difference` constraint. -/
def balance_workload_trace (teachers : List Teacher) (counter : Nat) :
    ObjTrace × Nat :=
  let (s, counter1) := createSolver counter
  ({ objOwner := s, conOwners := List.replicate (teachers.length * 2 + 1) s },
   counter1)

/-- `optimize_class_distribution` (objectives.py lines 158-206): one fresh solver;
per class, one same-day constraint per distinct day, two max/min constraints per
distinct day and one uneven-distribution constraint, plus the final
`distribution_quality` constraint. -/
def optimize_class_distribution_trace (classes : List SchoolClass)
    (time_slots : List TimeSlot) (counter : Nat) : ObjTrace × Nat :=
  let (s, counter1) := createSolver counter
  let numDays := ((time_slots.map Prod.fst).eraseDups).length
  ({ objOwner := s,
     conOwners := List.replicate (classes.length * (numDays * 3 + 1) + 1) s },
   counter1)

/-- `combined_objective` (objectives.py lines 220-272): creates its own fresh
solver first (line 222), then builds the three components — each on its own
further fresh solver — and finally adds `combined_obj == combined_expression` on
its own solver, which owns the returned `combined_obj` variable. -/
def combined_objective_trace (teachers : List Teacher) (classes : List SchoolClass)
    (time_slots : List TimeSlot) (counter : Nat) : ObjTrace × Nat :=
  let (s, counter1) := createSolver counter
  let (g, counter2) := minimize_teacher_gaps_trace teachers counter1
  let (w, counter3) := balance_workload_trace teachers counter2
  let (dist, counter4) := optimize_class_distribution_trace classes time_slots counter3
  ({ objOwner := s,
     conOwners := g.conOwners ++ w.conOwners ++ dist.conOwners ++ [s] },
   counter4)

/-- The scheduler's own solver (`Scheduler.__init__`, scheduler.py line 41) is the
first instance created in a session. -/
def schedulerSolverId : Nat := 0

/-- `Scheduler.set_objective` (scheduler.py lines 75-91): calls
`combined_objective` — whose solver creations start after the scheduler's own —
and passes the returned variable to `self.solver.Minimize`. -/
def set_objective_trace (teachers : List Teacher) (classes : List SchoolClass)
    (time_slots : List TimeSlot) : ObjTrace :=
  (combined_objective_trace teachers classes time_slots (createSolver 0).2).1

/-! ## Objective weights (`objectives.combined_objective` / `run_scheduler.py`) -/

/-- A weight configuration map, modelled as an association list. -/
def lookupWeight (weights : List (String × Rat)) (key : String) : Option Rat :=
  (weights.find? (fun p => p.1 == key)).map Prod.snd

/-- `combined_objective` reads `weights['gaps']`, `weights['workload']` and
`weights['distribution']` unconditionally (objectives.py lines 245-253); a missing
key raises `KeyError`, modelled as `none`. -/
def combined_objective_weights (weights : List (String × Rat)) :
    Option (Rat × Rat × Rat) :=
  match lookupWeight weights "gaps", lookupWeight weights "workload",
        lookupWeight weights "distribution" with
  | some g, some w, some d => some (g, w, d)
  | _, _, _ => none

/-- The weight map the repository's own driver passes
(`run_scheduler.py` lines 48-50). -/
def run_scheduler_main_weights : List (String × Rat) := [("gaps", 1)]

/-! ## Solve controller (`scheduler.Scheduler.solve`) and projection
(`Scheduler.get_schedule`, `scheduler_utils.run_scheduler`) -/

/-- The outcomes of `self.solver.Solve()` as branched on in `Scheduler.solve`
(scheduler.py lines 125-148): `OPTIMAL`, `FEASIBLE`, `INFEASIBLE`, `UNBOUNDED`,
any other status code (`ABNORMAL`/`NOT_SOLVED`, reached e.g. on a time budget
exceeded with no incumbent), or a raised exception with its message. -/
inductive SolverStatus where
  | optimal
  | feasible
  | infeasible
  | unbounded
  | abnormal
  | notSolved
  | err (msg : String)
  deriving DecidableEq

instance : DecidableEq (List (VarKey × Int)) := instDecidableEqList

/-- The mutable solver state of a `Scheduler`: `self.solution`, `None` until a
solve attempt succeeds. -/
structure SchedulerState where
  solution : Option (List (VarKey × Int))
  deriving DecidableEq

/-- `Scheduler.__init__` leaves `self.solution = None` (scheduler.py line 44). -/
def initialScheduler : SchedulerState := { solution := none }

/-- Solution extraction (scheduler.py lines 127-128 / 132-133): keep the
variables whose value exceeds 0.5 — for integer-valued variables, those with
value at least 1. -/
def extract_solution (vals : VarKey → Int) (space : List VarKey) :
    List (VarKey × Int) :=
  (space.filter (fun k => 0 < vals k)).map (fun k => (k, vals k))

/-- `Scheduler.solve` (scheduler.py lines 106-148): on `OPTIMAL` or `FEASIBLE`
store the extracted solution and return `True`; on every other status — and on a
raised exception — log a message and return `False`, leaving `self.solution`
untouched.  `vals` is the variable valuation the backend ends with. -/
def solve (status : SolverStatus) (vals : VarKey → Int) (space : List VarKey)
    (st : SchedulerState) : Bool × SchedulerState :=
  match status with
  | .optimal => (true, { solution := some (extract_solution vals space) })
  | .feasible => (true, { solution := some (extract_solution vals space) })
  | _ => (false, st)

/-- One row of the projected schedule (scheduler.py lines 167-172). -/
structure Entry where
  period : Nat
  teacher : String
  subject : String
  room : String
  deriving DecidableEq

/-- `schedule = {day: [] for day in range(5)}` (scheduler.py line 160). -/
def emptySchedule : List (Nat × List Entry) := (List.range 5).map (fun d => (d, []))

/-- `schedule[day].append(entry)`: appends when `day` is a key of the dictionary,
`KeyError` (modelled as `none`) otherwise. -/
def scheduleInsert (sched : List (Nat × List Entry)) (day : Nat) (e : Entry) :
    Option (List (Nat × List Entry)) :=
  if sched.any (fun p => p.1 == day) then
    some (sched.map (fun p => if p.1 == day then (p.1, p.2 ++ [e]) else p))
  else none

/-- `next(t for t in self.data["teachers"] if t["ID"] == teacher_id)`
(scheduler.py line 163); `StopIteration` when no teacher matches. -/
def findTeacher (data : SchoolData) (tid : String) : Option Teacher :=
  data.teachers.find? (fun t => t.id == tid)

/-- Lookup of a class by id (scheduler.py line 164). -/
def findClass (data : SchoolData) (cid : String) : Option SchoolClass :=
  data.classes.find? (fun c => c.id == cid)

/-- Lookup of a room by id (scheduler.py line 165). -/
def findRoom (data : SchoolData) (rid : String) : Option Room :=
  data.rooms.find? (fun r => r.id == rid)

/-- The body of the projection loop (scheduler.py lines 161-172), for one
solution item: skip values not above 0.5; look up teacher, class and room
(`StopIteration` on a miss); insert into `schedule[day]` (`KeyError` when the day
is not one of `range(5)`). -/
def projectItem (data : SchoolData) (sched : List (Nat × List Entry))
    (kv : VarKey × Int) : Except String (List (Nat × List Entry)) :=
  match kv with
  | ((tid, cid, rid, (day, period)), v) =>
    if 0 < v then
      match findTeacher data tid, findClass data cid, findRoom data rid with
      | some t, some c, some r =>
        match scheduleInsert sched day
            { period := period, teacher := t.name, subject := c.subject,
              room := r.id } with
        | some sched1 => .ok sched1
        | none => .error "KeyError"
      | _, _, _ => .error "StopIteration"
    else .ok sched

/-- `Scheduler.get_schedule` (scheduler.py lines 150-174): raise `ValueError`
when `not self.solution` (that is, when it is `None` or the empty dictionary);
otherwise fold the projection loop over the stored solution items. -/
def get_schedule (data : SchoolData) (st : SchedulerState) :
    Except String (List (Nat × List Entry)) :=
  match st.solution with
  | none => .error "No solution available. Please run solve() first."
  | some sol =>
    if sol.isEmpty then .error "No solution available. Please run solve() first."
    else sol.foldlM (projectItem data) emptySchedule

/-- `scheduler_utils.run_scheduler` (lines 15-34): build the model, solve, and
return `get_schedule()` on success; return `None` when `solve` reports failure or
any exception is raised along the way. -/
def run_scheduler (data : SchoolData) (status : SolverStatus)
    (vals : VarKey → Int) : Option (List (Nat × List Entry)) :=
  let space := create_variables data
  let (solved, st1) := solve status vals space initialScheduler
  if solved then
    match get_schedule data st1 with
    | .ok sched => some sched
    | .error _ => none
  else none

/-- The distinct days of the supplied time-slot collection, in first-occurrence
order (`days = set(day for day, _ in time_slots)` at objectives.py line 165). -/
def gridDays (time_slots : List TimeSlot) : List Nat :=
  (time_slots.map Prod.fst).eraseDups

/-! ## Concrete fixtures -/

/-- A teacher whose availability grid has no rows (so every cell is missing). -/
def tEmptyGrid : Teacher :=
  { id := "T1", name := "Alice", subjects := ["Math"], fullTime := true,
    availability := [] }

/-- A teacher with a one-cell grid whose only cell is `false`. -/
def tUnavail : Teacher :=
  { id := "T2", name := "Bob", subjects := ["Math"], fullTime := false,
    availability := [[false]] }

/-- A class requiring one period per week. -/
def cMath : SchoolClass :=
  { id := "C1", subject := "Math", gradeLevel := 1, numStudents := 10,
    periodsPerWeek := 1 }

/-- A room. -/
def rMain : Room := { id := "R1", capacity := 30, roomType := "general" }

/-- The all-ones decision assignment. -/
def allOnes : VarKey → Int := fun _ => 1

/-- The all-zeros decision assignment. -/
def allZeros : VarKey → Int := fun _ => 0

/-- The all-zeros gap assignment. -/
def zeroGaps : String × Nat × Nat → Int := fun _ => 0

/-- A one-of-each data set on the single slot `(0, 0)`. -/
def dataOne : SchoolData :=
  { teachers := [tEmptyGrid], classes := [cMath], rooms := [rMain],
    timeSlots := [(0, 0)] }

/-- A one-of-each data set whose only slot lies on a sixth day. -/
def dataDay5 : SchoolData :=
  { teachers := [tEmptyGrid], classes := [cMath], rooms := [rMain],
    timeSlots := [(5, 0)] }

/-- A solution assigning the single class on day 5. -/
def solDay5 : List (VarKey × Int) := [(("T1", "C1", "R1", (5, 0)), 1)]

/-- A solution assigning the single class on day 0. -/
def solDay0 : List (VarKey × Int) := [(("T1", "C1", "R1", (0, 0)), 1)]

/-- The schedule `get_schedule` projects from `solDay0` over `dataOne`. -/
def schedDay0 : List (Nat × List Entry) :=
  [(0, [{ period := 0, teacher := "Alice", subject := "Math", room := "R1" }]),
   (1, []), (2, []), (3, []), (4, [])]

/-! ## Helper lemmas -/

/-- A constraint whose terms all carry coefficient 1 sums the assignment over its
keys. -/
theorem conSum_unit_terms (σ : VarKey → Int) (keys : List VarKey) (lb ub : Int) :
    conSum σ { lb := lb, ub := ub, terms := keys.map (fun k => (k, 1)) } =
      (keys.map σ).sum := by
  simp [conSum, List.map_map, Function.comp_def]

/-- Every tuple drawn from the four collections indexes a created variable. -/
theorem mem_create_variables (data : SchoolData) (t : Teacher) (c : SchoolClass)
    (r : Room) (ts : TimeSlot) (ht : t ∈ data.teachers) (hc : c ∈ data.classes)
    (hr : r ∈ data.rooms) (hts : ts ∈ data.timeSlots) :
    (t.id, c.id, r.id, ts) ∈ create_variables data := by
  unfold create_variables
  rw [List.mem_flatMap]
  refine ⟨t, ht, ?_⟩
  rw [List.mem_flatMap]
  refine ⟨c, hc, ?_⟩
  rw [List.mem_flatMap]
  exact ⟨r, hr, List.mem_map_of_mem _ hts⟩

/-- The keys of one teacher at one slot all lie in the variable space. -/
theorem teacherSlotKeys_subset (data : SchoolData) (t : Teacher) (ts : TimeSlot)
    (ht : t ∈ data.teachers) (hts : ts ∈ data.timeSlots) :
    ∀ k ∈ teacherSlotKeys t.id data.classes data.rooms ts,
      k ∈ create_variables data := by
  intro k hk
  unfold teacherSlotKeys at hk
  rw [List.mem_flatMap] at hk
  obtain ⟨c, hc, hk⟩ := hk
  rw [List.mem_map] at hk
  obtain ⟨r, hr, rfl⟩ := hk
  exact mem_create_variables data t c r ts ht hc hr hts

/-- The keys of one class over all teachers, rooms and slots all lie in the
variable space. -/
theorem classTotalKeys_subset (data : SchoolData) (c : SchoolClass)
    (hc : c ∈ data.classes) :
    ∀ k ∈ classTotalKeys c data.teachers data.rooms data.timeSlots,
      k ∈ create_variables data := by
  intro k hk
  unfold classTotalKeys at hk
  rw [List.mem_flatMap] at hk
  obtain ⟨t, ht, hk⟩ := hk
  rw [List.mem_flatMap] at hk
  obtain ⟨r, hr, hk⟩ := hk
  rw [List.mem_map] at hk
  obtain ⟨ts, hts, rfl⟩ := hk
  exact mem_create_variables data t c r ts ht hc hr hts

/-- The four linking inequalities plus the 0/1 bounds pin the gap variable to the
sandwiched-idle-period indicator, provided the neighbouring teaching-period
values are binary. -/
theorem gap_value_eq_indicator (a b c g : Int)
    (ha : a = 0 ∨ a = 1) (hb : b = 0 ∨ b = 1) (hc : c = 0 ∨ c = 1)
    (h0 : 0 ≤ g) (h1 : g ≤ 1) (h2 : a + c - 1 ≤ g) (h3 : g ≤ 1 - b)
    (h4 : g ≤ a) (h5 : g ≤ c) :
    g = if a = 1 ∧ b = 0 ∧ c = 1 then 1 else 0 := by
  rcases ha with rfl | rfl <;> rcases hb with rfl | rfl <;> rcases hc with rfl | rfl <;>
    norm_num <;> omega

/-! ## Claims -/

/-- C1 counterexample.  The claim asserts that a missing availability cell still
yields the zero-sum constraint.  With a teacher whose grid has no cell at slot
`(0, 0)`, `teacher_availability_constraint` emits no constraint at all, so the
all-ones assignment — with the teacher teaching once at that slot — violates
nothing. -/
theorem availability_missing_cell_unconstrained :
    availabilityCell tEmptyGrid (0, 0) = none ∧
    teacher_availability_constraint [tEmptyGrid] [cMath] [rMain] [(0, 0)] = [] ∧
    teacherSlotSum allOnes tEmptyGrid.id [cMath] [rMain] (0, 0) = 1 := by
  refine ⟨rfl, rfl, by decide⟩

/-- C1 (amended).  For every teacher and slot at which the availability grid has
a cell and that cell is `false`, any assignment satisfying the emitted
availability constraints has a zero sum of that teacher's variables over all
classes and rooms at that slot.  (Missing cells produce a logged warning and no
constraint: the slot is left unconstrained.) -/
theorem availability_false_cell_forces_zero
    (teachers : List Teacher) (classes : List SchoolClass) (rooms : List Room)
    (time_slots : List TimeSlot) (σ : VarKey → Int)
    (hsat : ∀ con ∈ teacher_availability_constraint teachers classes rooms time_slots,
      satisfiesCon σ con)
    (t : Teacher) (ht : t ∈ teachers) (ts : TimeSlot) (hts : ts ∈ time_slots)
    (hcell : availabilityCell t ts = some false) :
    teacherSlotSum σ t.id classes rooms ts = 0 := by
  have hmem : LinearCon.mk 0 0 ((teacherSlotKeys t.id classes rooms ts).map (fun k => (k, 1))) ∈ teacher_availability_constraint teachers classes rooms time_slots := by
    unfold teacher_availability_constraint
    rw [List.mem_flatMap]
    refine ⟨t, ht, ?_⟩
    rw [List.mem_filterMap]
    exact ⟨ts, hts, by simp [hcell]⟩
  have h := hsat _ hmem
  unfold satisfiesCon at h
  rw [conSum_unit_terms] at h
  unfold teacherSlotSum
  exact le_antisymm h.2 h.1

/-- C1 witness: a present-and-false cell with the all-zeros assignment. -/
theorem availability_false_cell_forces_zero_witness :
    teacherSlotSum allZeros tUnavail.id [cMath] [rMain] (0, 0) = 0 :=
  availability_false_cell_forces_zero [tUnavail] [cMath] [rMain] [(0, 0)] allZeros
    (by decide) tUnavail (by decide) (0, 0) (by decide) (by decide)

/-- C4: the repository's own driver (`run_scheduler.py`) passes the default
weight map `{gaps: 1.0}`, and `combined_objective` unconditionally reads the
`workload` and `distribution` keys as well, so the lookup fails (`KeyError`)
instead of producing the weighted-sum objective. -/
theorem default_weights_missing_key :
    combined_objective_weights run_scheduler_main_weights = none := by
  decide

/-- C10: whenever the stored solution is absent — as in the initial scheduler
state and after every failed solve — `get_schedule` raises (`ValueError`) rather
than returning a schedule. -/
theorem get_schedule_requires_solution (data : SchoolData) (st : SchedulerState)
    (h : st.solution = none) :
    get_schedule data st =
      Except.error "No solution available. Please run solve() first." := by
  unfold get_schedule
  rw [h]

/-- C10 witness: the freshly initialized scheduler. -/
theorem get_schedule_requires_solution_witness :
    get_schedule dataOne initialScheduler =
      Except.error "No solution available. Please run solve() first." :=
  get_schedule_requires_solution dataOne initialScheduler rfl

/-- C6: for every class, any assignment satisfying the constraints emitted by
`required_periods_per_class` has that class's total over all teachers, rooms and
time slots equal to exactly `periodsPerWeek` — the emitted constraint has equal
lower and upper bounds. -/
theorem required_periods_forced
    (classes : List SchoolClass) (teachers : List Teacher) (rooms : List Room)
    (time_slots : List TimeSlot) (σ : VarKey → Int)
    (hsat : ∀ con ∈ required_periods_per_class classes teachers rooms time_slots,
      satisfiesCon σ con)
    (c : SchoolClass) (hc : c ∈ classes) :
    classTotalSum σ c teachers rooms time_slots = (c.periodsPerWeek : Int) := by
  have hmem : LinearCon.mk (c.periodsPerWeek : Int) (c.periodsPerWeek : Int) ((classTotalKeys c teachers rooms time_slots).map (fun k => (k, 1))) ∈ required_periods_per_class classes teachers rooms time_slots := by
    unfold required_periods_per_class
    exact List.mem_map_of_mem _ hc
  have h := hsat _ hmem
  unfold satisfiesCon at h
  rw [conSum_unit_terms] at h
  unfold classTotalSum
  exact le_antisymm h.2 h.1

/-- C6 witness: one class needing one period, satisfied by the all-ones
assignment on a one-slot grid. -/
theorem required_periods_forced_witness :
    classTotalSum allOnes cMath [tEmptyGrid] [rMain] [(0, 0)] =
      (cMath.periodsPerWeek : Int) :=
  required_periods_forced [cMath] [tEmptyGrid] [rMain] [(0, 0)] allOnes
    (by decide) cMath (by decide)

/-- C2: for every teacher, every (hardcoded) day `0..4` and every interior
period `1..6`, an assignment of the decision variables with binary
teaching-period sums together with a gap assignment satisfying the four linking
inequalities (and the 0/1 variable bounds) forces each gap variable to be 1
exactly when the teacher teaches periods `p-1` and `p+1` but not `p`; the
total-gaps value is then the sum of these indicators over all teachers, days and
interior periods. -/
theorem gap_constraints_force_indicator
    (space : List VarKey) (σ : VarKey → Int) (teachers : List Teacher)
    (classes : List SchoolClass) (rooms : List Room) (time_slots : List TimeSlot)
    (γ : String × Nat × Nat → Int)
    (hbin : ∀ tid d p, teachingPeriod space σ tid classes rooms d p = 0 ∨
      teachingPeriod space σ tid classes rooms d p = 1)
    (hsat : ∀ t ∈ teachers, ∀ d ∈ List.range 5, ∀ p ∈ interiorPeriods,
      gapConstraints space σ t.id classes rooms d p (γ (t.id, d, p))) :
    (∀ t ∈ teachers, ∀ d ∈ List.range 5, ∀ p ∈ interiorPeriods,
      γ (t.id, d, p) = gapIndicator space σ classes rooms (t.id, d, p)) ∧
    totalGapsValue teachers time_slots γ =
      ((gapTriples teachers time_slots).map
        (gapIndicator space σ classes rooms)).sum := by
  have main : ∀ t ∈ teachers, ∀ d ∈ List.range 5, ∀ p ∈ interiorPeriods,
      γ (t.id, d, p) = gapIndicator space σ classes rooms (t.id, d, p) := by
    intro t ht d hd p hp
    have h := hsat t ht d hd p hp
    unfold gapConstraints at h
    unfold gapIndicator
    exact gap_value_eq_indicator _ _ _ _ (hbin t.id d (p - 1)) (hbin t.id d p)
      (hbin t.id d (p + 1)) h.1 h.2.1 h.2.2.1 h.2.2.2.1 h.2.2.2.2.1 h.2.2.2.2.2
  refine ⟨main, ?_⟩
  unfold totalGapsValue
  congr 1
  apply List.map_congr_left
  intro trip htrip
  unfold gapTriples at htrip
  rw [List.mem_flatMap] at htrip
  obtain ⟨t, ht, htrip⟩ := htrip
  rw [List.mem_flatMap] at htrip
  obtain ⟨d, hd, htrip⟩ := htrip
  rw [List.mem_map] at htrip
  obtain ⟨p, hp, rfl⟩ := htrip
  exact main t ht d hd p hp

/-- C2 witness: the all-zeros decision and gap assignments on a one-of-each data
set satisfy the linking constraints, and every forced indicator is 0. -/
theorem gap_constraints_force_indicator_witness :
    (∀ t ∈ [tEmptyGrid], ∀ d ∈ List.range 5, ∀ p ∈ interiorPeriods,
      zeroGaps (t.id, d, p) = gapIndicator [] allZeros [cMath] [rMain] (t.id, d, p)) ∧
    totalGapsValue [tEmptyGrid] [(0, 0)] zeroGaps =
      ((gapTriples [tEmptyGrid] [(0, 0)]).map
        (gapIndicator [] allZeros [cMath] [rMain])).sum :=
  gap_constraints_force_indicator [] allZeros [tEmptyGrid] [cMath] [rMain]
    [(0, 0)] zeroGaps
    (by intro tid d p; left; simp [teachingPeriod, teacherSlotKeys, xGet])
    (by decide)

/-- C5 counterexample.  The claim requires each failure variant to come with a
failure reason the caller can distinguish from the other variants; but
`Scheduler.solve` returns the bare `False` (and an unchanged state) for
`INFEASIBLE` and `UNBOUNDED` alike — the reason is only logged. -/
theorem failure_variants_indistinguishable :
    solve SolverStatus.infeasible allZeros [] initialScheduler =
      solve SolverStatus.unbounded allZeros [] initialScheduler ∧
    SolverStatus.infeasible ≠ SolverStatus.unbounded := by
  exact ⟨rfl, by decide⟩

/-- C5 (amended): `solve` returns `True` exactly on the `OPTIMAL` and `FEASIBLE`
statuses; on every failure variant it returns `False`, leaves no stored solution,
and `run_scheduler` returns `None` — with the failure reason logged only, not
returned. -/
theorem solve_failure_yields_none (status : SolverStatus) (vals : VarKey → Int)
    (data : SchoolData) :
    ((solve status vals (create_variables data) initialScheduler).1 = true ↔
      status = SolverStatus.optimal ∨ status = SolverStatus.feasible) ∧
    ((solve status vals (create_variables data) initialScheduler).1 = false →
      (solve status vals (create_variables data) initialScheduler).2.solution =
        none ∧
      run_scheduler data status vals = none) := by
  cases status <;> simp [solve, run_scheduler, initialScheduler]

/-- C5 witness: the infeasible status at a concrete data set. -/
theorem solve_failure_yields_none_witness :
    run_scheduler dataOne SolverStatus.infeasible allZeros = none :=
  ((solve_failure_yields_none SolverStatus.infeasible allZeros dataOne).2 rfl).2

/-- C3: the objective expression handed to the scheduler's `Minimize` call is the
variable returned by `combined_objective`, which — like every constraint added
while building the gap, workload and distribution components — lives on solver
instances created freshly inside `objectives.py`, never on the scheduler's own
solver that holds the decision variables and hard constraints. -/
theorem objective_on_fresh_solvers (teachers : List Teacher)
    (classes : List SchoolClass) (time_slots : List TimeSlot) :
    (set_objective_trace teachers classes time_slots).objOwner ≠
      schedulerSolverId ∧
    ∀ o ∈ (set_objective_trace teachers classes time_slots).conOwners,
      o ≠ schedulerSolverId := by
  unfold set_objective_trace combined_objective_trace minimize_teacher_gaps_trace
    balance_workload_trace optimize_class_distribution_trace createSolver
    schedulerSolverId
  refine ⟨by simp, ?_⟩
  intro o ho
  simp only [List.mem_append, List.mem_replicate, List.mem_singleton] at ho
  rcases ho with ((⟨-, rfl⟩ | ⟨-, rfl⟩) | ⟨-, rfl⟩) | rfl <;> simp

/-- C3 witness: the trace of a concrete one-of-each session. -/
theorem objective_on_fresh_solvers_witness :
    (set_objective_trace [tEmptyGrid] [cMath] [(0, 0)]).objOwner ≠
      schedulerSolverId ∧
    ∀ o ∈ (set_objective_trace [tEmptyGrid] [cMath] [(0, 0)]).conOwners,
      o ≠ schedulerSolverId :=
  objective_on_fresh_solvers [tEmptyGrid] [cMath] [(0, 0)]

/-- C7: lookup of any tuple drawn from the four input collections succeeds in the
variable space built by `create_variables`; a lookup outside that space with the
`.get(key, 0)` pattern used by the objective builders contributes coefficient
zero; and every term of every hard constraint emitted by
`apply_all_constraints` references a key inside the space, so constraint
construction is total. -/
theorem variable_space_total (data : SchoolData) :
    (∀ t ∈ data.teachers, ∀ c ∈ data.classes, ∀ r ∈ data.rooms,
      ∀ ts ∈ data.timeSlots,
      (xFind (create_variables data) (t.id, c.id, r.id, ts)).isSome = true) ∧
    (∀ k ∉ create_variables data, ∀ σ, xGet (create_variables data) σ k = 0) ∧
    (∀ con ∈ apply_all_constraints data, ∀ term ∈ con.terms,
      term.1 ∈ create_variables data) := by
  refine ⟨?_, ?_, ?_⟩
  · intro t ht c hc r hr ts hts
    unfold xFind
    rw [if_pos (mem_create_variables data t c r ts ht hc hr hts)]
    rfl
  · intro k hk σ
    unfold xGet
    rw [if_neg hk]
  · intro con hcon term hterm
    unfold apply_all_constraints at hcon
    rw [List.mem_append] at hcon
    rcases hcon with hcon | hcon
    rotate_left
    · -- required_periods_per_class
      unfold required_periods_per_class at hcon
      rw [List.mem_map] at hcon
      obtain ⟨c, hc, rfl⟩ := hcon
      rw [List.mem_map] at hterm
      obtain ⟨k, hk, rfl⟩ := hterm
      exact classTotalKeys_subset data c hc k hk
    rw [List.mem_append] at hcon
    rcases hcon with hcon | hcon
    rotate_left
    · -- one_class_per_teacher_per_period
      unfold one_class_per_teacher_per_period at hcon
      rw [List.mem_flatMap] at hcon
      obtain ⟨t, ht, hcon⟩ := hcon
      rw [List.mem_map] at hcon
      obtain ⟨ts, hts, rfl⟩ := hcon
      rw [List.mem_map] at hterm
      obtain ⟨k, hk, rfl⟩ := hterm
      exact teacherSlotKeys_subset data t ts ht hts k hk
    rw [List.mem_append] at hcon
    rcases hcon with hcon | hcon
    · -- room_capacity_constraint
      unfold room_capacity_constraint at hcon
      rw [List.mem_flatMap] at hcon
      obtain ⟨r, hr, hcon⟩ := hcon
      rw [List.mem_map] at hcon
      obtain ⟨ts, hts, rfl⟩ := hcon
      rw [List.mem_flatMap] at hterm
      obtain ⟨c, hc, hterm⟩ := hterm
      rw [List.mem_map] at hterm
      obtain ⟨t, ht, rfl⟩ := hterm
      exact mem_create_variables data t c r ts ht hc hr hts
    · -- teacher_availability_constraint
      unfold teacher_availability_constraint at hcon
      rw [List.mem_flatMap] at hcon
      obtain ⟨t, ht, hcon⟩ := hcon
      rw [List.mem_filterMap] at hcon
      obtain ⟨ts, hts, hsome⟩ := hcon
      cases hcell : availabilityCell t ts with
      | none => rw [hcell] at hsome; exact Option.noConfusion hsome
      | some avail =>
        rw [hcell] at hsome
        cases avail with
        | true => simp at hsome
        | false =>
          simp only [Bool.false_eq_true, if_false, Option.some.injEq] at hsome
          subst hsome
          rw [List.mem_map] at hterm
          obtain ⟨k, hk, rfl⟩ := hterm
          exact teacherSlotKeys_subset data t ts ht hts k hk

/-- C7 witness: a concrete in-space lookup succeeds and an out-of-space lookup
contributes zero. -/
theorem variable_space_total_witness :
    (xFind (create_variables dataOne)
      (tEmptyGrid.id, cMath.id, rMain.id, (0, 0))).isSome = true ∧
    xGet (create_variables dataOne) allOnes ("X", "X", "X", (9, 9)) = 0 := by
  constructor
  · exact (variable_space_total dataOne).1 tEmptyGrid (by decide) cMath (by decide)
      rMain (by decide) (0, 0) (by decide)
  · exact (variable_space_total dataOne).2.1 ("X", "X", "X", (9, 9)) (by decide)
      allOnes

/-- `schedule[day].append` preserves the set of days of the schedule. -/
theorem scheduleInsert_keys (sched : List (Nat × List Entry)) (day : Nat)
    (e : Entry) (sched1 : List (Nat × List Entry))
    (h : scheduleInsert sched day e = some sched1) :
    sched1.map Prod.fst = sched.map Prod.fst := by
  unfold scheduleInsert at h
  split at h
  · rw [Option.some.injEq] at h
    subst h
    rw [List.map_map]
    apply List.map_congr_left
    intro p hp
    simp only [Function.comp_apply]
    split <;> rfl
  · exact Option.noConfusion h

/-- One projection step preserves the set of days of the schedule. -/
theorem projectItem_keys (data : SchoolData) (sched : List (Nat × List Entry))
    (kv : VarKey × Int) (sched1 : List (Nat × List Entry))
    (h : projectItem data sched kv = Except.ok sched1) :
    sched1.map Prod.fst = sched.map Prod.fst := by
  obtain ⟨⟨tid, cid, rid, day, period⟩, v⟩ := kv
  unfold projectItem at h
  dsimp only at h
  by_cases hv : 0 < v
  · rw [if_pos hv] at h
    cases hft : findTeacher data tid with
    | none => rw [hft] at h; exact Except.noConfusion h
    | some t =>
      rw [hft] at h
      cases hfc : findClass data cid with
      | none => rw [hfc] at h; exact Except.noConfusion h
      | some c =>
        rw [hfc] at h
        cases hfr : findRoom data rid with
        | none => rw [hfr] at h; exact Except.noConfusion h
        | some r =>
          rw [hfr] at h
          dsimp only at h
          cases hins : scheduleInsert sched day
              { period := period, teacher := t.name, subject := c.subject,
                room := r.id } with
          | none => rw [hins] at h; exact Except.noConfusion h
          | some s2 =>
            rw [hins] at h
            rw [Except.ok.injEq] at h
            subst h
            exact scheduleInsert_keys sched day _ s2 hins
  · rw [if_neg hv] at h
    rw [Except.ok.injEq] at h
    subst h
    rfl

/-- The projection fold preserves the set of days of the schedule. -/
theorem project_fold_keys (data : SchoolData) (sol : List (VarKey × Int)) :
    ∀ (sched res : List (Nat × List Entry)),
      List.foldlM (projectItem data) sched sol = Except.ok res →
      res.map Prod.fst = sched.map Prod.fst := by
  induction sol with
  | nil =>
    intro sched res h
    rw [List.foldlM_nil] at h
    have h1 : sched = res := Except.ok.inj h
    subst h1
    rfl
  | cons kv rest ih =>
    intro sched res h
    rw [List.foldlM_cons] at h
    cases hstep : projectItem data sched kv with
    | error e => rw [hstep] at h; exact Except.noConfusion h
    | ok sched1 =>
      rw [hstep] at h
      have h2 : List.foldlM (projectItem data) sched1 rest = Except.ok res := h
      rw [ih sched1 res h2, projectItem_keys data sched kv sched1 hstep]

/-- C8 counterexample.  With the single supplied slot `(5, 0)` the week's grid is
day 5, yet the gap objective still ranges over days `0..4` only; and a solution
entry on day 5 makes the projector raise a `KeyError` instead of yielding a
schedule containing that day. -/
theorem grid_fixed_counterexample :
    gridDays [(5, 0)] = [5] ∧
    (gapTriples [tEmptyGrid] [(5, 0)]).all (fun trip => trip.2.1 != 5) = true ∧
    get_schedule dataDay5 { solution := some solDay5 } =
      Except.error "KeyError" := by
  refine ⟨rfl, by decide, rfl⟩

/-- C8 (amended): the gap objective's grid is hardcoded — its triples are
independent of the supplied time-slot collection and range over exactly the days
`0..4` and interior periods `1..6` — and every successfully projected schedule
has entry lists for exactly the days `0..4`, a solution entry on any other day
raising a `KeyError`. -/
theorem gap_grid_and_schedule_days (teachers : List Teacher)
    (ts1 ts2 : List TimeSlot) :
    gapTriples teachers ts1 = gapTriples teachers ts2 ∧
    (∀ trip ∈ gapTriples teachers ts1,
      trip.2.1 < 5 ∧ 1 ≤ trip.2.2 ∧ trip.2.2 ≤ 6) ∧
    (∀ (data : SchoolData) (st : SchedulerState)
      (sched : List (Nat × List Entry)),
      get_schedule data st = Except.ok sched →
      sched.map Prod.fst = List.range 5) := by
  refine ⟨rfl, ?_, ?_⟩
  · intro trip htrip
    unfold gapTriples at htrip
    rw [List.mem_flatMap] at htrip
    obtain ⟨t, -, htrip⟩ := htrip
    rw [List.mem_flatMap] at htrip
    obtain ⟨d, hd, htrip⟩ := htrip
    rw [List.mem_map] at htrip
    obtain ⟨p, hp, rfl⟩ := htrip
    rw [List.mem_range] at hd
    unfold interiorPeriods at hp
    rw [List.mem_map] at hp
    obtain ⟨q, hq, rfl⟩ := hp
    rw [List.mem_range] at hq
    exact ⟨hd, Nat.succ_le_succ (Nat.zero_le q), hq⟩
  · intro data st sched h
    unfold get_schedule at h
    cases hsol : st.solution with
    | none => rw [hsol] at h; exact Except.noConfusion h
    | some sol =>
      rw [hsol] at h
      dsimp only at h
      by_cases hemp : sol.isEmpty
      · rw [if_pos hemp] at h; exact Except.noConfusion h
      · rw [if_neg hemp] at h
        rw [project_fold_keys data sol emptySchedule sched h]
        rfl

/-- C8 witness: the gap triples agree across two different slot collections, and
a concrete successful projection carries exactly the days `0..4`. -/
theorem gap_grid_and_schedule_days_witness :
    gapTriples [tEmptyGrid] [(0, 0)] = gapTriples [tEmptyGrid] [(5, 0)] ∧
    get_schedule dataOne { solution := some solDay0 } = Except.ok schedDay0 ∧
    schedDay0.map Prod.fst = List.range 5 := by
  have h := gap_grid_and_schedule_days [tEmptyGrid] [(0, 0)] [(5, 0)]
  exact ⟨h.1, rfl, h.2.2 dataOne { solution := some solDay0 } schedDay0 rfl⟩

/-- C9 counterexample.  An availability string with nine cells in its first day
is not truncated: the first row of the parsed grid keeps nine cells although
`num_periods = 8`, so the grid is not rectangular with rows of exactly
`num_periods`. -/
theorem parse_overlong_row_kept :
    (parse_availability "1,1,1,1,1,1,1,1,1" 5 8).length = 5 ∧
    ((parse_availability "1,1,1,1,1,1,1,1,1" 5 8).getD 0 []).length = 9 := by
  refine ⟨by decide, by decide⟩

/-- C9 (amended): whenever the input string has at most `num_days` day segments
and every day segment has at most `num_periods` cells, the parsed grid is
rectangular with exactly `num_days` rows of exactly `num_periods` cells (short
rows padded with `false`, missing days filled with all-`false` rows); overlong
rows and surplus days, however, are kept unshortened. -/
theorem parse_availability_rectangular (s : String) (num_days num_periods : Nat)
    (hdays : (pySplit ';' s.data).length ≤ num_days)
    (hcells : ∀ day ∈ pySplit ';' s.data,
      (pySplit ',' day).length ≤ num_periods) :
    (parse_availability s num_days num_periods).length = num_days ∧
    ∀ row ∈ parse_availability s num_days num_periods,
      row.length = num_periods := by
  unfold parse_availability
  constructor
  · rw [List.length_append, List.length_replicate, List.length_map]
    omega
  · intro row hrow
    rw [List.mem_append] at hrow
    rcases hrow with hrow | hrow
    · rw [List.mem_map] at hrow
      obtain ⟨day, hday, rfl⟩ := hrow
      rw [List.length_append, List.length_replicate, List.length_map]
      have h := hcells day hday
      omega
    · rw [List.mem_replicate] at hrow
      rw [hrow.2, List.length_replicate]

/-- C9 witness: a short two-day string parses to a full 5-by-8 grid. -/
theorem parse_availability_rectangular_witness :
    (parse_availability "1,0;0" 5 8).length = 5 ∧
    ∀ row ∈ parse_availability "1,0;0" 5 8, row.length = 8 :=
  parse_availability_rectangular "1,0;0" 5 8 (by decide) (by decide)

end SchoolScheduler
